import Mathlib

/-!
Shallow embedding of the ay32 API client (JavaScript) and proofs about it.

The embedded code comes from three source files:
- `src/api/client.js`: the axios instance with its request interceptor
  (attaching retry counters via `||` defaults), its response interceptor
  (error classification and the bounded retry loop), and
  `handleApiResponse`, which normalizes a settled transport promise into a
  `\x7bsuccess, data|error\x7d` result envelope;
- `src/api/email.js`: `addEmail`, `getLatestEmail`, `queryEmails`;
- `src/api/email-account.js`: `addEmailAccount`, `updateEmailAccount`.

JavaScript runtime values are modelled by `JSValue` (undefined, null,
booleans, integers, strings, and plain objects as association lists);
falsiness of `undefined`, `null`, `false`, `0` and the empty string is
modelled by `truthy`, and the short-circuiting `||` operator by `jsOr`.
Property access that throws a TypeError on a nullish base is modelled by
`jsGetE` returning `Except`; optional-chaining access (`?.`) and access on
a base known to be non-nullish use the total `jsIndex`.  Numbers are
modelled as `Int` (the source only ever compares them with `===`, `<`, `>`
against integer literals, so floating point plays no role).
-/

namespace ApiSpec

/-- JS runtime value: undefined, null, boolean, number (integral), string,
or a plain object represented as an association list in insertion order. -/
inductive JSValue where
  | undefined
  | null
  | bool (b : Bool)
  | num (n : Int)
  | str (s : String)
  | obj (fields : List (String × JSValue))
deriving Repr, Inhabited

mutual
/-- Decidable equality for `JSValue` (the `deriving` handler does not cover
this nested inductive, so it is written out by hand). -/
def jsDecEq : (a b : JSValue) → Decidable (a = b)
  | .undefined, .undefined => isTrue rfl
  | .null, .null => isTrue rfl
  | .bool a, .bool b =>
    match decEq a b with
    | isTrue h => isTrue (by rw [h])
    | isFalse h => isFalse (by intro hh; injection hh; contradiction)
  | .num a, .num b =>
    match decEq a b with
    | isTrue h => isTrue (by rw [h])
    | isFalse h => isFalse (by intro hh; injection hh; contradiction)
  | .str a, .str b =>
    match decEq a b with
    | isTrue h => isTrue (by rw [h])
    | isFalse h => isFalse (by intro hh; injection hh; contradiction)
  | .obj a, .obj b =>
    match jsDecEqFs a b with
    | isTrue h => isTrue (by rw [h])
    | isFalse h => isFalse (by intro hh; injection hh; contradiction)
  | .undefined, .null => isFalse fun h => JSValue.noConfusion h
  | .undefined, .bool _ => isFalse fun h => JSValue.noConfusion h
  | .undefined, .num _ => isFalse fun h => JSValue.noConfusion h
  | .undefined, .str _ => isFalse fun h => JSValue.noConfusion h
  | .undefined, .obj _ => isFalse fun h => JSValue.noConfusion h
  | .null, .undefined => isFalse fun h => JSValue.noConfusion h
  | .null, .bool _ => isFalse fun h => JSValue.noConfusion h
  | .null, .num _ => isFalse fun h => JSValue.noConfusion h
  | .null, .str _ => isFalse fun h => JSValue.noConfusion h
  | .null, .obj _ => isFalse fun h => JSValue.noConfusion h
  | .bool _, .undefined => isFalse fun h => JSValue.noConfusion h
  | .bool _, .null => isFalse fun h => JSValue.noConfusion h
  | .bool _, .num _ => isFalse fun h => JSValue.noConfusion h
  | .bool _, .str _ => isFalse fun h => JSValue.noConfusion h
  | .bool _, .obj _ => isFalse fun h => JSValue.noConfusion h
  | .num _, .undefined => isFalse fun h => JSValue.noConfusion h
  | .num _, .null => isFalse fun h => JSValue.noConfusion h
  | .num _, .bool _ => isFalse fun h => JSValue.noConfusion h
  | .num _, .str _ => isFalse fun h => JSValue.noConfusion h
  | .num _, .obj _ => isFalse fun h => JSValue.noConfusion h
  | .str _, .undefined => isFalse fun h => JSValue.noConfusion h
  | .str _, .null => isFalse fun h => JSValue.noConfusion h
  | .str _, .bool _ => isFalse fun h => JSValue.noConfusion h
  | .str _, .num _ => isFalse fun h => JSValue.noConfusion h
  | .str _, .obj _ => isFalse fun h => JSValue.noConfusion h
  | .obj _, .undefined => isFalse fun h => JSValue.noConfusion h
  | .obj _, .null => isFalse fun h => JSValue.noConfusion h
  | .obj _, .bool _ => isFalse fun h => JSValue.noConfusion h
  | .obj _, .num _ => isFalse fun h => JSValue.noConfusion h
  | .obj _, .str _ => isFalse fun h => JSValue.noConfusion h
/-- Decidable equality for object field lists. -/
def jsDecEqFs : (a b : List (String × JSValue)) → Decidable (a = b)
  | [], [] => isTrue rfl
  | [], _ :: _ => isFalse fun h => List.noConfusion h
  | _ :: _, [] => isFalse fun h => List.noConfusion h
  | (k, v) :: xs, (l, w) :: ys =>
    match decEq k l, jsDecEq v w, jsDecEqFs xs ys with
    | isTrue h1, isTrue h2, isTrue h3 => isTrue (by rw [h1, h2, h3])
    | isFalse h1, _, _ =>
      isFalse (by intro hh; injection hh with hp ht; exact h1 (congrArg Prod.fst hp))
    | _, isFalse h2, _ =>
      isFalse (by intro hh; injection hh with hp ht; exact h2 (congrArg Prod.snd hp))
    | _, _, isFalse h3 => isFalse (by intro hh; injection hh with hp ht; exact h3 ht)
end

instance : DecidableEq JSValue := jsDecEq

/-- JS truthiness: `undefined`, `null`, `false`, `0` and `""` are falsy;
every other value (including every object) is truthy. -/
def truthy : JSValue → Bool
  | .undefined => false
  | .null => false
  | .bool b => b
  | .num n => n != 0
  | .str s => s != ""
  | .obj _ => true

/-- JS short-circuiting `a || b`: yields `a` when `a` is truthy, else `b`. -/
def jsOr (a b : JSValue) : JSValue := if truthy a then a else b

/-- First-match association-list lookup; a missing key reads as `undefined`. -/
def lookupField : List (String × JSValue) → String → JSValue
  | [], _ => .undefined
  | (k, v) :: rest, key => if k = key then v else lookupField rest key

/-- Property read on a base already known (or chained) to be non-throwing:
objects look the key up, other primitives yield `undefined`.  On `null` or
`undefined` it also yields `undefined`, which is the semantics of the
optional-chaining form `base?.key`; a plain `base.key` on a nullish base
instead throws and is modelled by `jsGetE` below. -/
def jsIndex : JSValue → String → JSValue
  | .obj fs, key => lookupField fs key
  | _, _ => .undefined

/-- Plain property read `base.key`, which throws a TypeError when the base
is `null` or `undefined` (the thrown error's text is engine-specific; a
fixed descriptive message stands in for it). -/
def jsGetE (v : JSValue) (key : String) : Except String JSValue :=
  match v with
  | .undefined => .error ("TypeError: cannot read properties of undefined, reading " ++ key)
  | .null => .error ("TypeError: cannot read properties of null, reading " ++ key)
  | w => .ok (jsIndex w key)

/-- JS strict equality `v === n` against an integer literal `n`. -/
def jsEqNum (v : JSValue) (n : Int) : Bool :=
  match v with
  | .num m => m == n
  | _ => false

/-- Result envelope, the uniform return contract: a JS object
`\x7bsuccess, data?, error?\x7d` where `none` models an absent key. -/
structure Envelope where
  success : Bool
  data : Option JSValue := none
  error : Option JSValue := none
deriving Repr, DecidableEq

/-- An axios rejection reason as observed by `handleApiResponse` and the
response interceptor: `respBody` is the body attached to the error
(`error.response.data`), `none` when no response was received;
`message` is the `Error.message` text; `code` is the transport error code
such as ECONNABORTED. -/
structure JSError where
  respBody : Option JSValue := none
  message : Option String := none
  code : Option String := none
deriving Repr, DecidableEq

/-- The optional chain `error.response?.data?.errMsg` from the catch branch
of `handleApiResponse` in client.js. -/
def respDataErrMsg (e : JSError) : JSValue :=
  match e.respBody with
  | none => .undefined
  | some b => jsIndex b "errMsg"

/-- The value of `error.message` as a JS value (`undefined` when absent). -/
def messageVal (e : JSError) : JSValue :=
  match e.message with
  | none => .undefined
  | some s => .str s

/-- The catch branch of `handleApiResponse` in client.js:
`return \x7bsuccess: false, error: error.response?.data?.errMsg || error.message || 未知错误\x7d`. -/
def catchHandler (e : JSError) : Envelope :=
  { success := false,
    error := some (jsOr (jsOr (respDataErrMsg e) (messageVal e)) (.str "未知错误")) }

/-- A settled transport promise: either resolved with a parsed response body
(`response.data`) or rejected with an error. -/
inductive Outcome where
  | resolve (body : JSValue)
  | reject (e : JSError)
deriving Repr, DecidableEq

/-- Embeds `handleApiResponse` from client.js.  The whole try block is
modelled: `await apiPromise` (the `Outcome`), then `data.errCode === 0`
(which throws into the catch branch when the body is nullish — `jsGetE`),
then either `\x7bsuccess: true, data: data.data\x7d` or
`\x7bsuccess: false, error: data.errMsg || 未知错误\x7d`.  A thrown
TypeError reaches the catch branch as an error with a message and no
attached response. -/
def handleApiResponse : Outcome → Envelope
  | .reject e => catchHandler e
  | .resolve body =>
    match jsGetE body "errCode" with
    | .error msg => catchHandler { message := some msg }
    | .ok ec =>
      if jsEqNum ec 0 then
        { success := true, data := some (jsIndex body "data") }
      else
        { success := false, error := some (jsOr (jsIndex body "errMsg") (.str "未知错误")) }

/-- The transport error codes enumerated by the response interceptor in
client.js: ECONNABORTED, ETIMEDOUT, ECONNRESET, ENOTFOUND, EAI_AGAIN,
ENETUNREACH. -/
def retryableCode (c : Option String) : Bool :=
  match c with
  | some s =>
    s == "ECONNABORTED" || s == "ETIMEDOUT" || s == "ECONNRESET" ||
      s == "ENOTFOUND" || s == "EAI_AGAIN" || s == "ENETUNREACH"
  | none => false

/-- The `shouldRetry` condition of the response interceptor:
`config.retryCount < config.maxRetries && (code === ... || !error.response)`. -/
def shouldRetry (retryCount maxRetries : Nat) (code : Option String) (hasResponse : Bool) : Bool :=
  decide (retryCount < maxRetries) && (retryableCode code || !hasResponse)

/-- One attempt's outcome at the wire: either a response (its parsed body)
or a thrown axios error carrying a code, possibly an attached response
body, and a message. -/
inductive AttemptResult where
  | ok (body : JSValue)
  | err (code : Option String) (respBody : Option JSValue) (message : Option String)
deriving Repr, DecidableEq

/-- The retry loop of the response interceptor.  `net i` is the wire result
of the attempt whose `retryCount` is `i`; on an error, `shouldRetry`
decides between incrementing the counter, waiting `delay`, and reissuing
(`return apiClient(config)`), or rejecting with the error unmodified.
`budget` is `maxRetries - retryCount`; since `shouldRetry` itself requires
`retryCount < maxRetries`, the `budget = 0` fallback inside the retry
branch is unreachable whenever `budget = maxRetries - retryCount`, which
`runTransport` below guarantees.  Returns the final settled outcome, the
total number of attempts issued, and the list of delays waited (one before
each reissue). -/
def runRetry (net : Nat → AttemptResult) (maxRetries delay : Nat) :
    (retryCount budget : Nat) → Outcome × Nat × List Nat
  | rc, budget =>
    match net rc with
    | .ok body => (.resolve body, 1, [])
    | .err code respBody msg =>
      if shouldRetry rc maxRetries code respBody.isSome then
        match budget with
        | 0 => (.reject { respBody := respBody, message := msg, code := code }, 1, [])
        | b + 1 =>
          let r := runRetry net maxRetries delay (rc + 1) b
          (r.1, r.2.1 + 1, delay :: r.2.2)
      else
        (.reject { respBody := respBody, message := msg, code := code }, 1, [])

/-- The transport as dispatched with an attached `retryCount` (0 on a fresh
request) and `maxRetries`. -/
def runTransport (net : Nat → AttemptResult) (retryCount maxRetries delay : Nat) :
    Outcome × Nat × List Nat :=
  runRetry net maxRetries delay retryCount (maxRetries - retryCount)

/-- The mutable retry fields of an axios request config, before or after
the request interceptor has run; `none` models an absent (undefined)
property. -/
structure ReqConfig where
  retryCount : Option Nat := none
  maxRetries : Option Nat := none
  retryDelay : Option Nat := none
deriving Repr, DecidableEq

/-- JS `v || d` on a numeric property: an absent property or a present `0`
(both falsy) yield the default `d`. -/
def orDefault (v : Option Nat) (d : Nat) : Nat :=
  match v with
  | none => d
  | some n => if n == 0 then d else n

/-- The request interceptor of client.js:
`config.retryCount = config.retryCount || 0`,
`config.maxRetries = config.maxRetries || 2`,
`config.retryDelay = config.retryDelay || 1000`. -/
def requestInterceptor (c : ReqConfig) : ReqConfig :=
  { retryCount := some (orDefault c.retryCount 0),
    maxRetries := some (orDefault c.maxRetries 2),
    retryDelay := some (orDefault c.retryDelay 1000) }

/-- Truthiness of an optional JS string parameter (`undefined` and `""` are
falsy). -/
def strTruthy : Option String → Bool
  | none => false
  | some s => s != ""

/-- Truthiness of an optional JS number parameter (`undefined` and `0` are
falsy). -/
def intTruthy : Option Int → Bool
  | none => false
  | some n => n != 0

/-- An optional string parameter as a JS value. -/
def optStr : Option String → JSValue
  | none => .undefined
  | some s => .str s

/-- An optional number parameter as a JS value. -/
def optInt : Option Int → JSValue
  | none => .undefined
  | some n => .num n

/-- What an operation function does after local validation: either return a
result envelope directly (no HTTP call at all) or issue one POST with the
given path and request body, whose settled outcome then goes through
`handleApiResponse`. -/
inductive OpAction where
  | reply (envelope : Envelope)
  | request (path : String) (body : JSValue)
deriving Repr, DecidableEq

/-- The membership test `[swpu, huel, 892507222].includes(email_source)`
shared by the three email operations. -/
def sourceAllowed (s : String) : Bool :=
  s == "swpu" || s == "huel" || s == "892507222"

/-- Parameters of `addEmail` (email.js); `none` models an absent property. -/
structure EmailData where
  email_source : Option String := none
  email_type : Option Int := none
  sender_email : Option String := none
  recipient_email : Option String := none
  subject : Option String := none
  sender_name : Option String := none
  content : Option String := none
  email_id : Option String := none
  mail_time : Option Int := none
deriving Repr, DecidableEq

/-- Embeds `addEmail` from email.js: the validation chain in source order,
then the request body with the five required fields followed by each
optional field appended only when truthy (`if (sender_name) ...` etc.). -/
def addEmail (d : EmailData) : OpAction :=
  if !strTruthy d.email_source then
    .reply { success := false, error := some (.str "邮件来源不能为空") }
  else if !sourceAllowed (d.email_source.getD "") then
    .reply { success := false,
             error := some (.str "邮件来源必须为 \x27swpu\x27, \x27huel\x27 或 \x27892507222\x27") }
  else if !intTruthy d.email_type then
    .reply { success := false, error := some (.str "邮件类型不能为空") }
  else if !(d.email_type.getD 0 == 1 || d.email_type.getD 0 == 2) then
    .reply { success := false, error := some (.str "邮件类型必须为 1（发件）或 2（收件）") }
  else if !strTruthy d.sender_email || !strTruthy d.recipient_email then
    .reply { success := false, error := some (.str "发件人和收件人邮箱不能为空") }
  else if !strTruthy d.subject then
    .reply { success := false, error := some (.str "邮件主题不能为空") }
  else if (d.subject.getD "").length > 500 then
    .reply { success := false, error := some (.str "邮件主题长度不能超过500字符") }
  else
    .request "/email/addEmail" (.obj (
      [("email_source", optStr d.email_source),
       ("email_type", optInt d.email_type),
       ("sender_email", optStr d.sender_email),
       ("recipient_email", optStr d.recipient_email),
       ("subject", optStr d.subject)] ++
      (if strTruthy d.sender_name then [("sender_name", optStr d.sender_name)] else []) ++
      (if strTruthy d.content then [("content", optStr d.content)] else []) ++
      (if strTruthy d.email_id then [("email_id", optStr d.email_id)] else []) ++
      (if intTruthy d.mail_time then [("mail_time", optInt d.mail_time)] else [])))

/-- Parameters of `getLatestEmail` (email.js). -/
structure LatestParams where
  email_source : Option String := none
  email_type : Option Int := none
deriving Repr, DecidableEq

/-- Embeds `getLatestEmail` from email.js. -/
def getLatestEmail (p : LatestParams) : OpAction :=
  if !strTruthy p.email_source then
    .reply { success := false, error := some (.str "邮件来源不能为空") }
  else if !sourceAllowed (p.email_source.getD "") then
    .reply { success := false,
             error := some (.str "邮件来源必须为 \x27swpu\x27, \x27huel\x27 或 \x27892507222\x27") }
  else if !intTruthy p.email_type then
    .reply { success := false, error := some (.str "邮件类型不能为空") }
  else if !(p.email_type.getD 0 == 1 || p.email_type.getD 0 == 2) then
    .reply { success := false, error := some (.str "邮件类型必须为 1（发件）或 2（收件）") }
  else
    .request "/email/getLatestEmail" (.obj
      [("email_source", optStr p.email_source),
       ("email_type", optInt p.email_type)])

/-- Parameters of `queryEmails` (email.js). -/
structure QueryParams where
  email_source : Option String := none
  email_type : Option Int := none
  recipient_email : Option String := none
  sender_email : Option String := none
  subject : Option String := none
  page : Option Int := none
  pageSize : Option Int := none
deriving Repr, DecidableEq

/-- Embeds `queryEmails` from email.js.  The destructuring defaults
`page = 1` and `pageSize = 20` apply only when the property is absent
(undefined), which `Option.getD` models exactly. -/
def queryEmails (p : QueryParams) : OpAction :=
  if !strTruthy p.email_source then
    .reply { success := false, error := some (.str "邮件来源不能为空") }
  else if !sourceAllowed (p.email_source.getD "") then
    .reply { success := false,
             error := some (.str "邮件来源必须为 \x27swpu\x27, \x27huel\x27 或 \x27892507222\x27") }
  else if !intTruthy p.email_type then
    .reply { success := false, error := some (.str "邮件类型不能为空") }
  else if !(p.email_type.getD 0 == 1 || p.email_type.getD 0 == 2) then
    .reply { success := false, error := some (.str "邮件类型必须为 1（发件）或 2（收件）") }
  else if p.page.getD 1 < 1 then
    .reply { success := false, error := some (.str "页码必须大于等于1") }
  else if p.pageSize.getD 20 < 1 || p.pageSize.getD 20 > 100 then
    .reply { success := false, error := some (.str "每页数量必须在1-100之间") }
  else
    .request "/email/queryEmails" (.obj (
      [("email_source", optStr p.email_source),
       ("email_type", optInt p.email_type),
       ("page", .num (p.page.getD 1)),
       ("pageSize", .num (p.pageSize.getD 20))] ++
      (if strTruthy p.recipient_email then [("recipient_email", optStr p.recipient_email)] else []) ++
      (if strTruthy p.sender_email then [("sender_email", optStr p.sender_email)] else []) ++
      (if strTruthy p.subject then [("subject", optStr p.subject)] else [])))

/-- Parameters of `addEmailAccount` (email-account.js). -/
structure AccountData where
  username : Option String := none
  password : Option String := none
  reg_name : Option String := none
  reg_id_card : Option String := none
  reg_backup_email : Option String := none
  reg_phone : Option String := none
  notes : Option String := none
  is_sold : Option Bool := none
deriving Repr, DecidableEq

/-- Embeds `addEmailAccount` from email-account.js.  The at-least-one-field
check uses truthiness and does not consider `is_sold`; the request body
includes each field when it is defined (`!== undefined`), and `is_sold` is
always included because the destructuring default `is_sold = false` makes
it defined. -/
def addEmailAccount (d : AccountData) : OpAction :=
  if !strTruthy d.username && !strTruthy d.password && !strTruthy d.reg_name &&
      !strTruthy d.reg_id_card && !strTruthy d.reg_backup_email && !strTruthy d.reg_phone &&
      !strTruthy d.notes then
    .reply { success := false, error := some (.str "至少需要提供一项信息") }
  else
    .request "/emailAccountAdmin/addEmailAccount" (.obj (
      (if d.username.isSome then [("username", optStr d.username)] else []) ++
      (if d.password.isSome then [("password", optStr d.password)] else []) ++
      (if d.reg_name.isSome then [("reg_name", optStr d.reg_name)] else []) ++
      (if d.reg_id_card.isSome then [("reg_id_card", optStr d.reg_id_card)] else []) ++
      (if d.reg_backup_email.isSome then [("reg_backup_email", optStr d.reg_backup_email)] else []) ++
      (if d.reg_phone.isSome then [("reg_phone", optStr d.reg_phone)] else []) ++
      (if d.notes.isSome then [("notes", optStr d.notes)] else []) ++
      [("is_sold", .bool (d.is_sold.getD false))]))

/-- Parameters of `updateEmailAccount` (email-account.js); `updateData` is
a JS object modelled as an association list, `none` when absent. -/
structure UpdateParams where
  _id : Option String := none
  username : Option String := none
  reg_backup_email : Option String := none
  updateData : Option (List (String × JSValue)) := none
deriving Repr, DecidableEq

/-- Embeds `updateEmailAccount` from email-account.js: one of the three
lookup keys must be truthy; `updateData` must be present and non-empty;
the spread copy of `updateData` with `_id` and `create_date` deleted is
sent under the `updateData` key, followed by whichever lookup keys are
truthy. -/
def updateEmailAccount (p : UpdateParams) : OpAction :=
  if !strTruthy p._id && !strTruthy p.username && !strTruthy p.reg_backup_email then
    .reply { success := false,
             error := some (.str "必须提供 _id、username 或 reg_backup_email 其中之一作为查找条件") }
  else
    match p.updateData with
    | none => .reply { success := false, error := some (.str "更新数据不能为空") }
    | some l =>
      if l.isEmpty then
        .reply { success := false, error := some (.str "更新数据不能为空") }
      else
        let filteredData := l.filter (fun kv => !(kv.1 == "_id") && !(kv.1 == "create_date"))
        .request "/emailAccountAdmin/updateEmailAccount" (.obj (
          [("updateData", .obj filteredData)] ++
          (if strTruthy p._id then [("_id", optStr p._id)] else []) ++
          (if strTruthy p.username then [("username", optStr p.username)] else []) ++
          (if strTruthy p.reg_backup_email then
            [("reg_backup_email", optStr p.reg_backup_email)] else [])))

/-- Runs an operation's action against a backend modelled as a pure
function from path and request body to a settled transport outcome: a
validation reply short-circuits, a request goes through
`handleApiResponse`. -/
def runOp (net : String → JSValue → Outcome) (a : OpAction) : Envelope :=
  match a with
  | .reply e => e
  | .request path body => handleApiResponse (net path body)

/-- Runs an operation's action against a stateful backend: the backend
consumes its state and returns the settled outcome together with its next
state.  A validation reply leaves the backend state untouched. -/
def runOpSt {σ : Type} (net : σ → String → JSValue → Outcome × σ) (s : σ) (a : OpAction) :
    Envelope × σ :=
  match a with
  | .reply e => (e, s)
  | .request path body =>
    let r := net s path body
    (handleApiResponse r.1, r.2)

/-- Key membership in an object field list (JS `key in obj`). -/
def keyIn : List (String × JSValue) → String → Bool
  | [], _ => false
  | (s, _) :: rest, k => if s = k then true else keyIn rest k

/-- Key membership on a JS value: only objects have keys. -/
def hasKey : JSValue → String → Bool
  | .obj fs, k => keyIn fs k
  | _, _ => false

/-- Whether an operation reached the network (issued a request) rather
than short-circuiting with a validation reply. -/
def isRequest : OpAction → Bool
  | .request _ _ => true
  | .reply _ => false

/-- The request body an operation sent (meaningful only when `isRequest`). -/
def requestBody : OpAction → JSValue
  | .request _ b => b
  | .reply _ => .undefined

/-- A JS value that is either a string or falsy — the condition under which
the `||` fallback chains of client.js can only ever produce a string. -/
def strOrFalsy (v : JSValue) : Bool :=
  match v with
  | .str _ => true
  | w => !truthy w

/-- Well-formedness of a transport outcome, as promised by the backend
response contract: whatever body is attached (to the resolution, or to the
rejection's response), its `errMsg` property, when truthy, is a string. -/
def wfOutcome : Outcome → Bool
  | .resolve body => strOrFalsy (jsIndex body "errMsg")
  | .reject e => strOrFalsy (respDataErrMsg e)

/-- The result-envelope invariant of the spec: success means no error key
and a present data key; failure means the error key holds a string. -/
def EnvInv (e : Envelope) : Prop :=
  (e.success = true → e.error = none ∧ e.data.isSome = true) ∧
  (e.success = false → ∃ s, e.error = some (.str s))

/-! ### Helper lemmas about the `||` fallback chains -/

/-- Error message texts are strings or absent, so `messageVal` is a string
or falsy. -/
theorem strOrFalsy_messageVal (e : JSError) : strOrFalsy (messageVal e) = true := by
  cases h : e.message <;> simp [messageVal, h, strOrFalsy, truthy]

/-- A `||` whose left side is a string or falsy and whose right side is a
string yields a string. -/
theorem jsOr_is_str {a b : JSValue} (ha : strOrFalsy a = true) (hb : ∃ s, b = .str s) :
    ∃ s, jsOr a b = .str s := by
  unfold jsOr
  by_cases h : truthy a = true
  · rw [if_pos h]
    cases a with
    | str s => exact ⟨s, rfl⟩
    | undefined => simp [truthy] at h
    | null => simp [truthy] at h
    | bool bb => simp [strOrFalsy, truthy] at ha; simp [truthy, ha] at h
    | num n => simp [strOrFalsy, truthy] at ha; simp [truthy, ha] at h
    | obj fs => simp [strOrFalsy, truthy] at ha
  · rw [if_neg h]; exact hb

/-- A `||` of two string-or-falsy values is string-or-falsy. -/
theorem strOrFalsy_jsOr {a b : JSValue} (ha : strOrFalsy a = true) (hb : strOrFalsy b = true) :
    strOrFalsy (jsOr a b) = true := by
  unfold jsOr
  by_cases h : truthy a = true
  · rw [if_pos h]; exact ha
  · rw [if_neg h]; exact hb

/-- The catch branch produces a string error whenever the attached response
body's `errMsg` is a string or falsy. -/
theorem catchHandler_error_str (e : JSError) (h : strOrFalsy (respDataErrMsg e) = true) :
    ∃ s, (catchHandler e).error = some (.str s) := by
  obtain ⟨s, hs⟩ :=
    jsOr_is_str (strOrFalsy_jsOr h (strOrFalsy_messageVal e))
      (⟨"未知错误", rfl⟩ : ∃ s, (JSValue.str "未知错误") = .str s)
  exact ⟨s, by simp [catchHandler, hs]⟩

/-- On every well-formed outcome, `handleApiResponse` produces an envelope
satisfying the result-envelope invariant. -/
theorem envInv_handleApiResponse (o : Outcome) (h : wfOutcome o = true) :
    EnvInv (handleApiResponse o) := by
  cases o with
  | reject e =>
    have h1 : strOrFalsy (respDataErrMsg e) = true := by simpa [wfOutcome] using h
    constructor
    · intro hs; simp [handleApiResponse, catchHandler] at hs
    · intro _
      simpa [handleApiResponse] using catchHandler_error_str e h1
  | resolve body =>
    have h1 : strOrFalsy (jsIndex body "errMsg") = true := by simpa [wfOutcome] using h
    cases hb : jsGetE body "errCode" with
    | error msg =>
      constructor
      · intro hs; simp [handleApiResponse, hb, catchHandler] at hs
      · intro _
        have : strOrFalsy (respDataErrMsg { message := some msg }) = true := by
          simp [respDataErrMsg, strOrFalsy, truthy]
        simpa [handleApiResponse, hb] using catchHandler_error_str _ this
    | ok ec =>
      by_cases hz : jsEqNum ec 0 = true
      · constructor
        · intro _; simp [handleApiResponse, hb, hz]
        · intro hs; simp [handleApiResponse, hb, hz] at hs
      · constructor
        · intro hs; simp [handleApiResponse, hb, hz] at hs
        · intro _
          obtain ⟨s, hs⟩ := jsOr_is_str h1 (⟨"未知错误", rfl⟩ : ∃ s, (JSValue.str "未知错误") = .str s)
          exact ⟨s, by simp [handleApiResponse, hb, hz, hs]⟩

/-- A validation-failure reply satisfies the result-envelope invariant. -/
theorem envInv_fail_reply (m : String) :
    EnvInv { success := false, error := some (.str m) } :=
  ⟨fun h => Bool.noConfusion h, fun _ => ⟨m, rfl⟩⟩

/-- Any operation action all of whose replies are validation failures
yields an invariant-satisfying envelope when run against a well-formed
backend. -/
theorem envInv_runOp (net : String → JSValue → Outcome)
    (hwf : ∀ q b, wfOutcome (net q b) = true) (a : OpAction)
    (hr : ∀ e, a = .reply e → ∃ m, e = { success := false, error := some (.str m) }) :
    EnvInv (runOp net a) := by
  cases a with
  | reply e =>
    obtain ⟨m, rfl⟩ := hr e rfl
    exact envInv_fail_reply m
  | request p b => exact envInv_handleApiResponse _ (hwf p b)

/-- Every short-circuit reply of `addEmail` is a failure envelope with a
string message. -/
theorem addEmail_reply_shape (d : EmailData) (e : Envelope) (he : addEmail d = .reply e) :
    ∃ m, e = { success := false, error := some (.str m) } := by
  unfold addEmail at he
  repeat' split at he
  all_goals first
    | exact ⟨_, (OpAction.reply.inj he).symm⟩
    | exact OpAction.noConfusion he

/-- Every short-circuit reply of `getLatestEmail` is a failure envelope
with a string message. -/
theorem getLatestEmail_reply_shape (p : LatestParams) (e : Envelope)
    (he : getLatestEmail p = .reply e) :
    ∃ m, e = { success := false, error := some (.str m) } := by
  unfold getLatestEmail at he
  repeat' split at he
  all_goals first
    | exact ⟨_, (OpAction.reply.inj he).symm⟩
    | exact OpAction.noConfusion he

/-- Every short-circuit reply of `queryEmails` is a failure envelope with a
string message. -/
theorem queryEmails_reply_shape (p : QueryParams) (e : Envelope)
    (he : queryEmails p = .reply e) :
    ∃ m, e = { success := false, error := some (.str m) } := by
  unfold queryEmails at he
  repeat' split at he
  all_goals first
    | exact ⟨_, (OpAction.reply.inj he).symm⟩
    | exact OpAction.noConfusion he

/-- Every short-circuit reply of `addEmailAccount` is a failure envelope
with a string message. -/
theorem addEmailAccount_reply_shape (d : AccountData) (e : Envelope)
    (he : addEmailAccount d = .reply e) :
    ∃ m, e = { success := false, error := some (.str m) } := by
  unfold addEmailAccount at he
  repeat' split at he
  all_goals first
    | exact ⟨_, (OpAction.reply.inj he).symm⟩
    | exact OpAction.noConfusion he

/-- Every short-circuit reply of `updateEmailAccount` is a failure envelope
with a string message. -/
theorem updateEmailAccount_reply_shape (p : UpdateParams) (e : Envelope)
    (he : updateEmailAccount p = .reply e) :
    ∃ m, e = { success := false, error := some (.str m) } := by
  unfold updateEmailAccount at he
  repeat' split at he
  all_goals first
    | exact ⟨_, (OpAction.reply.inj he).symm⟩
    | exact OpAction.noConfusion he

/-! ### Helper lemmas about object field lists -/

/-- Key membership distributes over list append. -/
theorem keyIn_append (xs ys : List (String × JSValue)) (k : String) :
    keyIn (xs ++ ys) k = (keyIn xs k || keyIn ys k) := by
  induction xs with
  | nil => simp [keyIn]
  | cons hd tl ih =>
    obtain ⟨s, v⟩ := hd
    by_cases h : s = k <;> simp [keyIn, h, ih]

/-- Key membership commutes with a conditional field list. -/
theorem keyIn_ite (c : Prop) [Decidable c] (xs ys : List (String × JSValue)) (k : String) :
    keyIn (if c then xs else ys) k = if c then keyIn xs k else keyIn ys k := by
  split <;> rfl

/-- A conditional that merely reflects its Boolean condition. -/
theorem ite_bool_id (b : Bool) : (if b = true then true else false) = b := by
  cases b <;> simp

/-- Lookup walks appended field lists left to right. -/
theorem lookupField_append (xs ys : List (String × JSValue)) (k : String) :
    lookupField (xs ++ ys) k
      = if keyIn xs k then lookupField xs k else lookupField ys k := by
  induction xs with
  | nil => simp [keyIn, lookupField]
  | cons hd tl ih =>
    obtain ⟨s, v⟩ := hd
    by_cases h : s = k <;> simp [keyIn, lookupField, h, ih]

/-! ### C1: normalization of resolved backend bodies -/

/-- C1 (counterexample): the claim says the failure envelope's error is the
body's `errMsg` whenever `errMsg` is not absent, but for the present,
empty-string `errMsg` the code's `||` fallback replaces it with the
generic unknown-error string. -/
theorem errMsg_empty_unknown_cx :
    handleApiResponse (.resolve (.obj [("errCode", .num 1), ("errMsg", .str "")]))
      = { success := false, error := some (.str "未知错误") } ∧
    jsIndex (.obj [("errCode", .num 1), ("errMsg", .str "")]) "errMsg" = .str "" ∧
    (handleApiResponse (.resolve (.obj [("errCode", .num 1), ("errMsg", .str "")]))).error
      ≠ some (.str "") := by
  decide

/-- C1 (amended): for every resolved body whose `errCode` is the number
`c`, the result is `success` with the body's `data` field exactly when
`c = 0`; otherwise it is a failure whose error is the body's `errMsg` when
that is a non-empty string, and the generic unknown-error string when
`errMsg` is absent or otherwise falsy. -/
theorem handleApiResponse_errCode (body : JSValue) (c : Int)
    (hc : jsIndex body "errCode" = .num c) :
    (c = 0 → handleApiResponse (.resolve body)
        = { success := true, data := some (jsIndex body "data") }) ∧
    (∀ s, c ≠ 0 → jsIndex body "errMsg" = .str s → s ≠ "" →
      handleApiResponse (.resolve body)
        = { success := false, error := some (.str s) }) ∧
    (c ≠ 0 → truthy (jsIndex body "errMsg") = false →
      handleApiResponse (.resolve body)
        = { success := false, error := some (.str "未知错误") }) := by
  obtain ⟨fs, rfl⟩ : ∃ fs, body = .obj fs := by
    cases body <;> simp [jsIndex] at hc
    exact ⟨_, rfl⟩
  refine ⟨?_, ?_, ?_⟩
  · intro h0
    subst h0
    simp [handleApiResponse, jsGetE, hc, jsEqNum]
  · intro s hcne hm hsne
    simp [handleApiResponse, jsGetE, hc, jsEqNum, hcne, hm, jsOr, truthy, hsne]
  · intro hcne hfalsy
    simp [handleApiResponse, jsGetE, hc, jsEqNum, hcne, jsOr, hfalsy]

/-- C1 (witness): the amended theorem applied at three concrete bodies. -/
theorem handleApiResponse_errCode_witness :
    handleApiResponse (.resolve (.obj [("errCode", .num 0), ("data", .num 7)]))
      = { success := true, data := some (.num 7) } ∧
    handleApiResponse (.resolve (.obj [("errCode", .num 3), ("errMsg", .str "参数错误")]))
      = { success := false, error := some (.str "参数错误") } ∧
    handleApiResponse (.resolve (.obj [("errCode", .num 3)]))
      = { success := false, error := some (.str "未知错误") } := by
  refine ⟨?_, ?_, ?_⟩
  · exact (handleApiResponse_errCode (.obj [("errCode", .num 0), ("data", .num 7)]) 0 rfl).1 rfl
  · exact (handleApiResponse_errCode (.obj [("errCode", .num 3), ("errMsg", .str "参数错误")])
      3 rfl).2.1 "参数错误" (by decide) rfl (by decide)
  · exact (handleApiResponse_errCode (.obj [("errCode", .num 3)]) 3 rfl).2.2
      (by decide) (by decide)

/-! ### C2: the result-envelope invariant -/

/-- C2: every envelope produced by `handleApiResponse` on a well-formed
outcome, and every envelope produced by running any of the five embedded
operations against a well-formed backend (so in particular every
validation short-circuit), satisfies the invariant: success implies no
error key and a present data key — and for a resolved body the data key
holds the backend body's `data` field — while failure implies the error
key holds a string. -/
theorem result_envelope_invariant :
    (∀ o : Outcome, wfOutcome o = true → EnvInv (handleApiResponse o)) ∧
    (∀ body : JSValue, (handleApiResponse (.resolve body)).success = true →
      (handleApiResponse (.resolve body)).data = some (jsIndex body "data")) ∧
    (∀ (net : String → JSValue → Outcome) (d : EmailData),
      (∀ q b, wfOutcome (net q b) = true) → EnvInv (runOp net (addEmail d))) ∧
    (∀ (net : String → JSValue → Outcome) (p : LatestParams),
      (∀ q b, wfOutcome (net q b) = true) → EnvInv (runOp net (getLatestEmail p))) ∧
    (∀ (net : String → JSValue → Outcome) (p : QueryParams),
      (∀ q b, wfOutcome (net q b) = true) → EnvInv (runOp net (queryEmails p))) ∧
    (∀ (net : String → JSValue → Outcome) (d : AccountData),
      (∀ q b, wfOutcome (net q b) = true) → EnvInv (runOp net (addEmailAccount d))) ∧
    (∀ (net : String → JSValue → Outcome) (p : UpdateParams),
      (∀ q b, wfOutcome (net q b) = true) → EnvInv (runOp net (updateEmailAccount p))) := by
  refine ⟨envInv_handleApiResponse, ?_, ?_, ?_, ?_, ?_, ?_⟩
  · intro body h
    cases hb : jsGetE body "errCode" with
    | error m =>
      exfalso; simp [handleApiResponse, hb, catchHandler] at h
    | ok ec =>
      by_cases hz : jsEqNum ec 0 = true
      · simp [handleApiResponse, hb, hz]
      · exfalso; simp [handleApiResponse, hb, hz] at h
  · intro net d hwf; exact envInv_runOp net hwf _ (addEmail_reply_shape d)
  · intro net p hwf; exact envInv_runOp net hwf _ (getLatestEmail_reply_shape p)
  · intro net p hwf; exact envInv_runOp net hwf _ (queryEmails_reply_shape p)
  · intro net d hwf; exact envInv_runOp net hwf _ (addEmailAccount_reply_shape d)
  · intro net p hwf; exact envInv_runOp net hwf _ (updateEmailAccount_reply_shape p)

/-- C2 (witness): the invariant theorem applied at a concrete success
outcome, and at each operation with a concrete backend — `addEmail` with
empty input exercising a validation short-circuit, the others too. -/
theorem result_envelope_invariant_witness :
    EnvInv (handleApiResponse (.resolve (.obj [("errCode", .num 0), ("data", .num 7)]))) ∧
    (handleApiResponse (.resolve (.obj [("errCode", .num 0), ("data", .num 7)]))).data
      = some (jsIndex (.obj [("errCode", .num 0), ("data", .num 7)]) "data") ∧
    EnvInv (runOp (fun _ _ => .resolve (.obj [("errCode", .num 1), ("errMsg", .str "服务器错误")]))
      (addEmail {})) ∧
    EnvInv (runOp (fun _ _ => .resolve (.obj [("errCode", .num 1), ("errMsg", .str "服务器错误")]))
      (getLatestEmail {})) ∧
    EnvInv (runOp (fun _ _ => .resolve (.obj [("errCode", .num 1), ("errMsg", .str "服务器错误")]))
      (queryEmails {})) ∧
    EnvInv (runOp (fun _ _ => .resolve (.obj [("errCode", .num 1), ("errMsg", .str "服务器错误")]))
      (addEmailAccount {})) ∧
    EnvInv (runOp (fun _ _ => .resolve (.obj [("errCode", .num 1), ("errMsg", .str "服务器错误")]))
      (updateEmailAccount {})) := by
  refine ⟨result_envelope_invariant.1 _ (by decide),
    result_envelope_invariant.2.1 _ (by decide),
    result_envelope_invariant.2.2.1 _ _ (fun q b => by decide),
    result_envelope_invariant.2.2.2.1 _ _ (fun q b => by decide),
    result_envelope_invariant.2.2.2.2.1 _ _ (fun q b => by decide),
    result_envelope_invariant.2.2.2.2.2.1 _ _ (fun q b => by decide),
    result_envelope_invariant.2.2.2.2.2.2 _ _ (fun q b => by decide)⟩

/-! ### C3: handleApiResponse is terminal -/

/-- C3 (counterexample): the claim says a rejection's error string is the
response body's `errMsg`, falling back to the error's own message only
otherwise — but for a present, empty-string `errMsg` the code's `||`
fallback skips it and uses the error's message. -/
theorem reject_empty_errMsg_cx :
    handleApiResponse (.reject { respBody := some (.obj [("errMsg", .str "")]),
                                 message := some "socket hang up" })
      = { success := false, error := some (.str "socket hang up") } ∧
    respDataErrMsg { respBody := some (.obj [("errMsg", .str "")]),
                     message := some "socket hang up" } = .str "" ∧
    (handleApiResponse (.reject { respBody := some (.obj [("errMsg", .str "")]),
                                  message := some "socket hang up" })).error
      ≠ some (.str "") := by
  decide

/-- C3 (amended): `handleApiResponse` is terminal — every rejection
resolves to a failure envelope, and a resolution with a nullish
(missing/malformed) body resolves to a failure envelope carrying the
caught TypeError's message rather than propagating the exception.  On
rejection the error string is the response body's `errMsg` when that is a
non-empty string, else the error's own message when that is a non-empty
string, else the generic unknown-error string (the `||` fallbacks treat
a present empty string like an absent value). -/
theorem handleApiResponse_never_raises :
    (∀ e : JSError, (handleApiResponse (.reject e)).success = false) ∧
    (handleApiResponse (.resolve .null)
      = { success := false,
          error := some (.str "TypeError: cannot read properties of null, reading errCode") }) ∧
    (handleApiResponse (.resolve .undefined)
      = { success := false,
          error := some (.str "TypeError: cannot read properties of undefined, reading errCode") }) ∧
    (∀ (e : JSError) (s : String), respDataErrMsg e = .str s → s ≠ "" →
      handleApiResponse (.reject e) = { success := false, error := some (.str s) }) ∧
    (∀ (e : JSError) (m : String), truthy (respDataErrMsg e) = false → e.message = some m →
      m ≠ "" → handleApiResponse (.reject e) = { success := false, error := some (.str m) }) ∧
    (∀ e : JSError, truthy (respDataErrMsg e) = false → truthy (messageVal e) = false →
      handleApiResponse (.reject e) = { success := false, error := some (.str "未知错误") }) := by
  refine ⟨fun e => rfl, by decide, by decide, ?_, ?_, ?_⟩
  · intro e s hm hs
    simp [handleApiResponse, catchHandler, jsOr, hm, truthy, hs]
  · intro e m hfalsy hmsg hm
    have hmv : messageVal e = .str m := by simp [messageVal, hmsg]
    simp only [handleApiResponse, catchHandler, jsOr, hfalsy, hmv]
    simp [truthy, hm]
  · intro e hfalsy hmfalsy
    simp only [handleApiResponse, catchHandler, jsOr, hfalsy, hmfalsy]
    simp [hmfalsy]

/-- C3 (witness): the amended theorem applied at concrete rejections — one
with a backend message, one with only an error message, one with
neither. -/
theorem handleApiResponse_never_raises_witness :
    (handleApiResponse (.reject { respBody := some (.obj [("errMsg", .str "后端错误")]) })).success
      = false ∧
    handleApiResponse (.reject { respBody := some (.obj [("errMsg", .str "后端错误")]) })
      = { success := false, error := some (.str "后端错误") } ∧
    handleApiResponse (.reject { message := some "connect ECONNREFUSED" })
      = { success := false, error := some (.str "connect ECONNREFUSED") } ∧
    handleApiResponse (.reject {})
      = { success := false, error := some (.str "未知错误") } := by
  refine ⟨handleApiResponse_never_raises.1 _,
    handleApiResponse_never_raises.2.2.2.1 _ "后端错误" rfl (by decide),
    handleApiResponse_never_raises.2.2.2.2.1 _ "connect ECONNREFUSED" (by decide) rfl (by decide),
    handleApiResponse_never_raises.2.2.2.2.2 _ (by decide) (by decide)⟩

/-! ### C4: non-retryable failures -/

/-- C4 (counterexample): the claim says an error carrying a response is
never retried whatever its attached code, but the interceptor's condition
is `transient-code OR no-response`, so a response-carrying error whose
code is ETIMEDOUT is still retried — here twice, for 3 total attempts. -/
theorem response_with_retryable_code_cx :
    runTransport
        (fun _ => .err (some "ETIMEDOUT") (some (.obj [("errMsg", .str "x")])) (some "timeout"))
        0 2 1000
      = (.reject { respBody := some (.obj [("errMsg", .str "x")]), message := some "timeout",
                   code := some "ETIMEDOUT" }, 3, [1000, 1000]) ∧
    (runTransport
        (fun _ => .err (some "ETIMEDOUT") (some (.obj [("errMsg", .str "x")])) (some "timeout"))
        0 2 1000).2.1 ≠ 1 := by
  decide

/-- C4 (amended): a failed request whose error carries a response is
retried zero times — the rejection propagates immediately after the single
attempt — provided its code is not one of the six transient codes the
interceptor also accepts (for a response-carrying error with such a code
the disjunction still triggers a retry, per the counterexample). -/
theorem transport_response_no_retry (net : Nat → AttemptResult) (rc maxR delay : Nat)
    (code : Option String) (b : JSValue) (msg : Option String)
    (hnet : net rc = .err code (some b) msg)
    (hcode : retryableCode code = false) :
    runTransport net rc maxR delay
      = (.reject { respBody := some b, message := msg, code := code }, 1, []) := by
  unfold runTransport runRetry
  simp [hnet, shouldRetry, hcode]

/-- C4 (witness): a 500-class error response with no transport code is
rejected after exactly one attempt. -/
theorem transport_response_no_retry_witness :
    runTransport (fun _ => .err none (some (.obj [("errCode", .num 500)])) (some "Request failed"))
        0 2 1000
      = (.reject { respBody := some (.obj [("errCode", .num 500)]),
                   message := some "Request failed", code := none }, 1, []) :=
  transport_response_no_retry _ 0 2 1000 none (.obj [("errCode", .num 500)])
    (some "Request failed") rfl (by decide)

/-! ### C5: retry exhaustion on no-response failures -/

/-- Exhausting the budget: starting at `retryCount = rc` with
`budget = maxR - rc` remaining retries, all-failing no-response attempts
end in the error of attempt `maxR`, with `budget + 1` attempts and one
delay per reissue. -/
theorem runRetry_all_fail (codes msgs : Nat → Option String) (maxR delay : Nat) :
    ∀ (budget rc : Nat), rc + budget = maxR →
      runRetry (fun i => .err (codes i) none (msgs i)) maxR delay rc budget
        = (.reject { respBody := none, message := msgs maxR, code := codes maxR },
           budget + 1, List.replicate budget delay) := by
  intro budget
  induction budget with
  | zero =>
    intro rc h
    have hrc : rc = maxR := by omega
    subst hrc
    unfold runRetry
    simp [shouldRetry]
  | succ b ih =>
    intro rc h
    have hlt : rc < maxR := by omega
    have hcond : shouldRetry rc maxR (codes rc) (Option.isSome (none : Option JSValue)) = true := by
      simp [shouldRetry, hlt]
    unfold runRetry
    simp only [hcond, if_true]
    rw [ih (rc + 1) (by omega)]
    simp [List.replicate_succ]

/-- C5: a request dispatched with attached `maxRetries = m` whose every
attempt fails with a no-response (retryable) failure is issued exactly
`1 + m` times, with one `retryDelay` wait before each of the `m` reissues,
and the final outcome is the rejection of the last attempt (attempt `m`),
its code and message unmodified. -/
theorem transport_retry_exhaustion (codes msgs : Nat → Option String) (m delay : Nat) :
    runTransport (fun i => .err (codes i) none (msgs i)) 0 m delay
      = (.reject { respBody := none, message := msgs m, code := codes m },
         m + 1, List.replicate m delay) := by
  unfold runTransport
  simpa using runRetry_all_fail codes msgs m delay m 0 (by omega)

/-! ### C6: attaching retry counters on dispatch -/

/-- C6 (counterexample): an explicitly attached `maxRetries: 0` or
`retryDelay: 0` — in range per the claim — is NOT preserved: the JS `||`
defaulting treats the present 0 as absent and overwrites it. -/
theorem requestInterceptor_zero_cx :
    requestInterceptor { maxRetries := some 0, retryDelay := some 0 }
      = { retryCount := some 0, maxRetries := some 2, retryDelay := some 1000 } ∧
    (requestInterceptor { maxRetries := some 0, retryDelay := some 0 }).maxRetries ≠ some 0 ∧
    (requestInterceptor { maxRetries := some 0, retryDelay := some 0 }).retryDelay ≠ some 0 := by
  decide

/-- C6 (amended): on dispatch the interceptor attaches counters when
absent, with defaults retryCount 0, maxRetries 2, retryDelay 1000;
explicitly attached NONZERO values are preserved unchanged; an explicit
zero, however, is replaced by the default, because `||` treats 0 as
falsy. -/
theorem requestInterceptor_defaults (c : ReqConfig) :
    (c.retryCount = none → (requestInterceptor c).retryCount = some 0) ∧
    (c.maxRetries = none → (requestInterceptor c).maxRetries = some 2) ∧
    (c.retryDelay = none → (requestInterceptor c).retryDelay = some 1000) ∧
    (∀ n, n ≠ 0 → c.retryCount = some n → (requestInterceptor c).retryCount = some n) ∧
    (∀ n, n ≠ 0 → c.maxRetries = some n → (requestInterceptor c).maxRetries = some n) ∧
    (∀ n, n ≠ 0 → c.retryDelay = some n → (requestInterceptor c).retryDelay = some n) ∧
    (c.maxRetries = some 0 → (requestInterceptor c).maxRetries = some 2) ∧
    (c.retryDelay = some 0 → (requestInterceptor c).retryDelay = some 1000) := by
  refine ⟨?_, ?_, ?_, ?_, ?_, ?_, ?_, ?_⟩ <;>
    first
      | (intro h; simp [requestInterceptor, orDefault, h])
      | (intro n hn h; simp [requestInterceptor, orDefault, h, hn])

/-- C6 (witness): defaults attached on an empty config; explicit nonzero
values preserved; explicit zero overwritten. -/
theorem requestInterceptor_defaults_witness :
    (requestInterceptor {}).retryCount = some 0 ∧
    (requestInterceptor {}).maxRetries = some 2 ∧
    (requestInterceptor {}).retryDelay = some 1000 ∧
    (requestInterceptor
      { retryCount := some 1, maxRetries := some 5, retryDelay := some 200 }).maxRetries
      = some 5 ∧
    (requestInterceptor { maxRetries := some 0 }).maxRetries = some 2 := by
  refine ⟨(requestInterceptor_defaults {}).1 rfl,
    (requestInterceptor_defaults {}).2.1 rfl,
    (requestInterceptor_defaults {}).2.2.1 rfl,
    (requestInterceptor_defaults _).2.2.2.2.1 5 (by decide) rfl,
    (requestInterceptor_defaults _).2.2.2.2.2.2.1 rfl⟩

/-! ### C7: queryEmails validation short-circuits -/

/-- C7: every malformed `queryEmails` input — missing or unsupported
`email_source`, missing or out-of-range `email_type`, `page < 1`, or
`pageSize` outside 1..100 — short-circuits with the specific validation
message, returning a reply and issuing no HTTP request at all (a
`.reply` action never reaches `runOp`'s network branch). -/
theorem queryEmails_validation (p : QueryParams) :
    (strTruthy p.email_source = false →
      queryEmails p = .reply { success := false, error := some (.str "邮件来源不能为空") }) ∧
    (∀ s, p.email_source = some s → s ≠ "" → sourceAllowed s = false →
      queryEmails p = .reply
        { success := false,
          error := some (.str "邮件来源必须为 \x27swpu\x27, \x27huel\x27 或 \x27892507222\x27") }) ∧
    (strTruthy p.email_source = true → sourceAllowed (p.email_source.getD "") = true →
      intTruthy p.email_type = false →
      queryEmails p = .reply { success := false, error := some (.str "邮件类型不能为空") }) ∧
    (∀ t, strTruthy p.email_source = true → sourceAllowed (p.email_source.getD "") = true →
      p.email_type = some t → t ≠ 0 → t ≠ 1 → t ≠ 2 →
      queryEmails p = .reply
        { success := false, error := some (.str "邮件类型必须为 1（发件）或 2（收件）") }) ∧
    (∀ t, strTruthy p.email_source = true → sourceAllowed (p.email_source.getD "") = true →
      p.email_type = some t → (t = 1 ∨ t = 2) → p.page.getD 1 < 1 →
      queryEmails p = .reply { success := false, error := some (.str "页码必须大于等于1") }) ∧
    (∀ t, strTruthy p.email_source = true → sourceAllowed (p.email_source.getD "") = true →
      p.email_type = some t → (t = 1 ∨ t = 2) → 1 ≤ p.page.getD 1 →
      (p.pageSize.getD 20 < 1 ∨ p.pageSize.getD 20 > 100) →
      queryEmails p = .reply
        { success := false, error := some (.str "每页数量必须在1-100之间") }) := by
  refine ⟨?_, ?_, ?_, ?_, ?_, ?_⟩
  · intro h
    simp [queryEmails, h]
  · intro s hsome hs hsa
    simp [queryEmails, hsome, strTruthy, hs, hsa]
  · intro h1 h2 h3
    simp [queryEmails, h1, h2, h3]
  · intro t h1 h2 hty ht0 ht1 ht2
    simp [queryEmails, h1, h2, hty, intTruthy, ht0, ht1, ht2]
  · intro t h1 h2 hty htor hpage
    rcases htor with rfl | rfl <;>
      simp [queryEmails, h1, h2, hty, intTruthy, hpage]
  · intro t h1 h2 hty htor hpage hps
    have hnp : ¬ (p.page.getD 1 < 1) := by omega
    rcases htor with rfl | rfl <;> rcases hps with hps | hps <;>
      simp [queryEmails, h1, h2, hty, intTruthy, hnp, hps, Int.not_lt.mpr hpage]

/-- C7 (witness): the validation theorem applied at concrete malformed
inputs — absent source, `email_type: 3`, `page: 0`, `pageSize: 0`. -/
theorem queryEmails_validation_witness :
    queryEmails {} = .reply { success := false, error := some (.str "邮件来源不能为空") } ∧
    queryEmails { email_source := some "huel", email_type := some 3 }
      = .reply
        { success := false, error := some (.str "邮件类型必须为 1（发件）或 2（收件）") } ∧
    queryEmails { email_source := some "huel", email_type := some 2, page := some 0 }
      = .reply { success := false, error := some (.str "页码必须大于等于1") } ∧
    queryEmails { email_source := some "huel", email_type := some 2, pageSize := some 0 }
      = .reply { success := false, error := some (.str "每页数量必须在1-100之间") } := by
  refine ⟨(queryEmails_validation {}).1 rfl,
    (queryEmails_validation _).2.2.2.1 3 (by decide) (by decide) rfl
      (by decide) (by decide) (by decide),
    (queryEmails_validation _).2.2.2.2.1 2 (by decide) (by decide) rfl
      (Or.inr rfl) (by decide),
    (queryEmails_validation _).2.2.2.2.2 2 (by decide) (by decide) rfl
      (Or.inr rfl) (by decide) (Or.inl (by decide))⟩

/-! ### C8: optional request-body fields -/

/-- C8 (counterexample): `sender_name` and `mail_time` are supplied as
defined (an empty string and the number 0), yet the request body omits
both — the `if (field)` guards test truthiness, not definedness. -/
theorem addEmail_falsy_optional_cx :
    (({ email_source := some "huel", email_type := some 2, sender_email := some "a@b.c",
        recipient_email := some "d@e.f", subject := some "hi",
        sender_name := some "", mail_time := some 0 } : EmailData)).sender_name = some "" ∧
    (({ email_source := some "huel", email_type := some 2, sender_email := some "a@b.c",
        recipient_email := some "d@e.f", subject := some "hi",
        sender_name := some "", mail_time := some 0 } : EmailData)).mail_time = some 0 ∧
    addEmail { email_source := some "huel", email_type := some 2, sender_email := some "a@b.c",
               recipient_email := some "d@e.f", subject := some "hi",
               sender_name := some "", mail_time := some 0 }
      = .request "/email/addEmail" (.obj
          [("email_source", .str "huel"), ("email_type", .num 2),
           ("sender_email", .str "a@b.c"), ("recipient_email", .str "d@e.f"),
           ("subject", .str "hi")]) ∧
    hasKey (requestBody (addEmail
      { email_source := some "huel", email_type := some 2, sender_email := some "a@b.c",
        recipient_email := some "d@e.f", subject := some "hi",
        sender_name := some "", mail_time := some 0 })) "sender_name" = false ∧
    hasKey (requestBody (addEmail
      { email_source := some "huel", email_type := some 2, sender_email := some "a@b.c",
        recipient_email := some "d@e.f", subject := some "hi",
        sender_name := some "", mail_time := some 0 })) "mail_time" = false := by
  decide

/-- Once validation passes, `addEmail` issues its request with the body
laid out as in the source: required fields then conditional optional
fields. -/
theorem addEmail_request_form (d : EmailData) (hd : isRequest (addEmail d) = true) :
    addEmail d = .request "/email/addEmail" (.obj (
      [("email_source", optStr d.email_source),
       ("email_type", optInt d.email_type),
       ("sender_email", optStr d.sender_email),
       ("recipient_email", optStr d.recipient_email),
       ("subject", optStr d.subject)] ++
      (if strTruthy d.sender_name then [("sender_name", optStr d.sender_name)] else []) ++
      (if strTruthy d.content then [("content", optStr d.content)] else []) ++
      (if strTruthy d.email_id then [("email_id", optStr d.email_id)] else []) ++
      (if intTruthy d.mail_time then [("mail_time", optInt d.mail_time)] else []))) := by
  unfold addEmail at hd ⊢
  split at hd
  next => simp [isRequest] at hd
  next h1 =>
    rw [if_neg h1]
    split at hd
    next => simp [isRequest] at hd
    next h2 =>
      rw [if_neg h2]
      split at hd
      next => simp [isRequest] at hd
      next h3 =>
        rw [if_neg h3]
        split at hd
        next => simp [isRequest] at hd
        next h4 =>
          rw [if_neg h4]
          split at hd
          next => simp [isRequest] at hd
          next h5 =>
            rw [if_neg h5]
            split at hd
            next => simp [isRequest] at hd
            next h6 =>
              rw [if_neg h6]
              split at hd
              next => simp [isRequest] at hd
              next h7 => rw [if_neg h7]

/-- Once validation passes, `addEmailAccount` issues its request with each
field included when defined and `is_sold` always included. -/
theorem addEmailAccount_request_form (a : AccountData)
    (ha : isRequest (addEmailAccount a) = true) :
    addEmailAccount a = .request "/emailAccountAdmin/addEmailAccount" (.obj (
      (if a.username.isSome then [("username", optStr a.username)] else []) ++
      (if a.password.isSome then [("password", optStr a.password)] else []) ++
      (if a.reg_name.isSome then [("reg_name", optStr a.reg_name)] else []) ++
      (if a.reg_id_card.isSome then [("reg_id_card", optStr a.reg_id_card)] else []) ++
      (if a.reg_backup_email.isSome then [("reg_backup_email", optStr a.reg_backup_email)]
        else []) ++
      (if a.reg_phone.isSome then [("reg_phone", optStr a.reg_phone)] else []) ++
      (if a.notes.isSome then [("notes", optStr a.notes)] else []) ++
      [("is_sold", .bool (a.is_sold.getD false))])) := by
  unfold addEmailAccount at ha ⊢
  split at ha
  next => simp [isRequest] at ha
  next h1 => rw [if_neg h1]

/-- C8 (amended): whenever a request is issued, the body of `addEmail`
contains an optional field exactly when the supplied value is truthy
(non-empty string, nonzero number) — so a defined-but-falsy value is
dropped, per the counterexample — with truthy values forwarded unchanged;
the body of `addEmailAccount` contains each field exactly when it is
defined (even an empty string), with defined values forwarded unchanged
and `is_sold` always present, defaulting to false.  Absent fields never
appear, not even as null. -/
theorem request_optional_fields (d : EmailData) (a : AccountData)
    (hd : isRequest (addEmail d) = true) (ha : isRequest (addEmailAccount a) = true) :
    (hasKey (requestBody (addEmail d)) "sender_name" = strTruthy d.sender_name ∧
     hasKey (requestBody (addEmail d)) "content" = strTruthy d.content ∧
     hasKey (requestBody (addEmail d)) "email_id" = strTruthy d.email_id ∧
     hasKey (requestBody (addEmail d)) "mail_time" = intTruthy d.mail_time ∧
     (strTruthy d.sender_name = true →
       jsIndex (requestBody (addEmail d)) "sender_name" = optStr d.sender_name) ∧
     (strTruthy d.content = true →
       jsIndex (requestBody (addEmail d)) "content" = optStr d.content) ∧
     (strTruthy d.email_id = true →
       jsIndex (requestBody (addEmail d)) "email_id" = optStr d.email_id) ∧
     (intTruthy d.mail_time = true →
       jsIndex (requestBody (addEmail d)) "mail_time" = optInt d.mail_time)) ∧
    (hasKey (requestBody (addEmailAccount a)) "username" = a.username.isSome ∧
     hasKey (requestBody (addEmailAccount a)) "password" = a.password.isSome ∧
     hasKey (requestBody (addEmailAccount a)) "reg_name" = a.reg_name.isSome ∧
     hasKey (requestBody (addEmailAccount a)) "reg_id_card" = a.reg_id_card.isSome ∧
     hasKey (requestBody (addEmailAccount a)) "reg_backup_email" = a.reg_backup_email.isSome ∧
     hasKey (requestBody (addEmailAccount a)) "reg_phone" = a.reg_phone.isSome ∧
     hasKey (requestBody (addEmailAccount a)) "notes" = a.notes.isSome ∧
     hasKey (requestBody (addEmailAccount a)) "is_sold" = true ∧
     (a.username.isSome = true →
       jsIndex (requestBody (addEmailAccount a)) "username" = optStr a.username) ∧
     (a.notes.isSome = true →
       jsIndex (requestBody (addEmailAccount a)) "notes" = optStr a.notes) ∧
     jsIndex (requestBody (addEmailAccount a)) "is_sold" = .bool (a.is_sold.getD false)) := by
  rw [addEmail_request_form d hd, addEmailAccount_request_form a ha]
  constructor
  · refine ⟨?_, ?_, ?_, ?_, ?_, ?_, ?_, ?_⟩ <;>
      first
        | (intro h;
           simp [requestBody, jsIndex, lookupField_append, keyIn_append, keyIn_ite, keyIn,
             lookupField, ite_bool_id, ite_self, h];
           done)
        | (simp [requestBody, hasKey, keyIn_append, keyIn_ite, keyIn, ite_bool_id, ite_self];
           done)
  · refine ⟨?_, ?_, ?_, ?_, ?_, ?_, ?_, ?_, ?_, ?_, ?_⟩ <;>
      first
        | (intro h;
           simp [requestBody, jsIndex, lookupField_append, keyIn_append, keyIn_ite, keyIn,
             lookupField, ite_bool_id, ite_self, h];
           done)
        | (simp [requestBody, jsIndex, lookupField_append, hasKey, keyIn_append, keyIn_ite,
             keyIn, lookupField, ite_bool_id, ite_self];
           done)

/-- C8 (witness): the amended theorem applied at concrete inputs with a
present `sender_name`, an absent `mail_time`, a present `username`, an
absent `password`, and no explicit `is_sold`. -/
theorem request_optional_fields_witness :
    hasKey (requestBody (addEmail
      { email_source := some "huel", email_type := some 2, sender_email := some "a@b.c",
        recipient_email := some "d@e.f", subject := some "hi",
        sender_name := some "张三" })) "sender_name" = true ∧
    jsIndex (requestBody (addEmail
      { email_source := some "huel", email_type := some 2, sender_email := some "a@b.c",
        recipient_email := some "d@e.f", subject := some "hi",
        sender_name := some "张三" })) "sender_name" = .str "张三" ∧
    hasKey (requestBody (addEmail
      { email_source := some "huel", email_type := some 2, sender_email := some "a@b.c",
        recipient_email := some "d@e.f", subject := some "hi",
        sender_name := some "张三" })) "mail_time" = false ∧
    hasKey (requestBody (addEmailAccount { username := some "u@x.cn" })) "username" = true ∧
    hasKey (requestBody (addEmailAccount { username := some "u@x.cn" })) "password" = false ∧
    hasKey (requestBody (addEmailAccount { username := some "u@x.cn" })) "is_sold" = true ∧
    jsIndex (requestBody (addEmailAccount { username := some "u@x.cn" })) "is_sold"
      = .bool false := by
  have h := request_optional_fields
    { email_source := some "huel", email_type := some 2, sender_email := some "a@b.c",
      recipient_email := some "d@e.f", subject := some "hi", sender_name := some "张三" }
    { username := some "u@x.cn" } (by decide) (by decide)
  exact ⟨h.1.1, h.1.2.2.2.2.1 rfl, h.1.2.2.2.1, h.2.1, h.2.2.1,
    h.2.2.2.2.2.2.2.2.1, h.2.2.2.2.2.2.2.2.2.2.2⟩

/-! ### C9: idempotence of read-only queries -/

/-- C9: against a backend whose state is unchanged by the call (a
read-only query), issuing the same `getLatestEmail` input twice in
sequence yields identical result envelopes. -/
theorem getLatestEmail_idempotent {σ : Type} (net : σ → String → JSValue → Outcome × σ)
    (s : σ) (p : LatestParams)
    (hro : ∀ (st : σ) (q : String) (b : JSValue), (net st q b).2 = st) :
    (runOpSt net (runOpSt net s (getLatestEmail p)).2 (getLatestEmail p)).1
      = (runOpSt net s (getLatestEmail p)).1 := by
  cases h : getLatestEmail p with
  | reply e => simp [runOpSt, h]
  | request path body => simp [runOpSt, h, hro]

/-- C9 (witness): the idempotence theorem applied at a concrete stateful
backend whose responses depend on its (unchanged) state. -/
theorem getLatestEmail_idempotent_witness :
    (runOpSt
        (fun (st : Nat) _ _ => (.resolve (.obj [("errCode", .num 0), ("data", .num st)]), st))
        ((runOpSt
          (fun (st : Nat) _ _ => (.resolve (.obj [("errCode", .num 0), ("data", .num st)]), st))
          5 (getLatestEmail { email_source := some "huel", email_type := some 2 })).2)
        (getLatestEmail { email_source := some "huel", email_type := some 2 })).1
      = (runOpSt
          (fun (st : Nat) _ _ => (.resolve (.obj [("errCode", .num 0), ("data", .num st)]), st))
          5 (getLatestEmail { email_source := some "huel", email_type := some 2 })).1 :=
  getLatestEmail_idempotent _ 5 _ (fun _ _ _ => rfl)

/-! ### C10: updateEmailAccount filters updateData -/

/-- C10: when `updateEmailAccount` passes validation (a truthy lookup key
and a non-empty `updateData`), the request body's `updateData` equals the
caller's `updateData` with the `_id` and `create_date` keys removed, and
every other field of the caller's `updateData` is forwarded unchanged
(membership is preserved in both directions). -/
theorem updateEmailAccount_filters (p : UpdateParams) (l : List (String × JSValue))
    (hfind : (strTruthy p._id || strTruthy p.username || strTruthy p.reg_backup_email) = true)
    (hdata : p.updateData = some l) (hne : l ≠ []) :
    ∃ fields : List (String × JSValue),
      updateEmailAccount p = .request "/emailAccountAdmin/updateEmailAccount" (.obj fields) ∧
      lookupField fields "updateData"
        = .obj (l.filter (fun kv => !(kv.1 == "_id") && !(kv.1 == "create_date"))) ∧
      (∀ kv ∈ l, kv.1 ≠ "_id" → kv.1 ≠ "create_date" →
        ∃ fs, lookupField fields "updateData" = .obj fs ∧ kv ∈ fs) ∧
      (∀ fs, lookupField fields "updateData" = .obj fs →
        ∀ kv ∈ fs, kv.1 ≠ "_id" ∧ kv.1 ≠ "create_date" ∧ kv ∈ l) := by
  have hcond :
      ¬ ((!strTruthy p._id && !strTruthy p.username && !strTruthy p.reg_backup_email) = true) := by
    cases h1 : strTruthy p._id <;> cases h2 : strTruthy p.username <;>
      cases h3 : strTruthy p.reg_backup_email <;> simp_all
  have hempty : l.isEmpty = false := by
    cases l with
    | nil => exact absurd rfl hne
    | cons hd tl => rfl
  unfold updateEmailAccount
  rw [if_neg hcond, hdata]
  simp only [hempty, Bool.false_eq_true, if_false]
  refine ⟨_, rfl, ?_, ?_, ?_⟩
  · simp [lookupField]
  · intro kv hkv h1 h2
    refine ⟨l.filter (fun kv => !(kv.1 == "_id") && !(kv.1 == "create_date")),
      by simp [lookupField], ?_⟩
    simp [List.mem_filter, hkv, h1, h2]
  · intro fs hfs kv hkv
    have hfseq : l.filter (fun kv => !(kv.1 == "_id") && !(kv.1 == "create_date")) = fs := by
      simpa [lookupField] using hfs
    subst hfseq
    have hm := List.mem_filter.mp hkv
    refine ⟨?_, ?_, hm.1⟩
    · intro hbad
      have := hm.2
      simp [hbad] at this
    · intro hbad
      have := hm.2
      simp [hbad] at this

/-- C10 (witness): the filtering theorem applied at a concrete update that
tries to smuggle `_id` and `create_date` through `updateData`. -/
theorem updateEmailAccount_filters_witness :
    ∃ fields : List (String × JSValue),
      updateEmailAccount
        { _id := some "507f", updateData := some
            [("_id", .str "evil"), ("password", .str "pw"), ("create_date", .num 5),
             ("notes", .str "ok")] }
        = .request "/emailAccountAdmin/updateEmailAccount" (.obj fields) ∧
      lookupField fields "updateData"
        = .obj ([("_id", .str "evil"), ("password", .str "pw"), ("create_date", .num 5),
            ("notes", .str "ok")].filter
              (fun kv => !(kv.1 == "_id") && !(kv.1 == "create_date"))) ∧
      (∀ kv ∈ [("_id", JSValue.str "evil"), ("password", JSValue.str "pw"),
          ("create_date", JSValue.num 5), ("notes", JSValue.str "ok")],
        kv.1 ≠ "_id" → kv.1 ≠ "create_date" →
        ∃ fs, lookupField fields "updateData" = .obj fs ∧ kv ∈ fs) ∧
      (∀ fs, lookupField fields "updateData" = .obj fs →
        ∀ kv ∈ fs, kv.1 ≠ "_id" ∧ kv.1 ≠ "create_date" ∧
          kv ∈ [("_id", JSValue.str "evil"), ("password", JSValue.str "pw"),
            ("create_date", JSValue.num 5), ("notes", JSValue.str "ok")]) :=
  updateEmailAccount_filters _ _ (by decide) rfl (by decide)

end ApiSpec
